import Mathlib

/-!
Shallow embedding of the BILLING-SYSTEM-SOFTWARE repository
(`billing_app`: `models.py`, `views.py`, `utils.py`).

Conventions of the embedding:
* Monetary amounts are exact decimals with two fractional digits in the
  source (Django `DecimalField(decimal_places=2)`, Python `Decimal`); we
  represent them as natural numbers of hundredths (paise), so that
  `quantity × price` and sums stay exact.
* The relational store (tables `Menu`, `Order`, `OrderItem`) is a record of
  lists; foreign keys are plain ids.  `created_at` timestamps are a calendar
  date plus a time-of-day counter, ordered lexicographically.
* The session cart (a Python dict keyed by menu-item id, insertion ordered)
  is an association list of `CartLine`s.
* Randomness (`uuid.uuid4()`) and clock reads (`timezone.now()`) are passed
  in as explicit parameters.
-/

namespace Billing

/-- Order status, from `Order.ORDER_STATUS` in `models.py`. -/
inductive OrderStatus
  | pending
  | paid
  | cancelled
deriving DecidableEq, Repr

/-- A calendar date (`datetime.date`). -/
structure Date where
  year : Nat
  month : Nat
  day : Nat
deriving DecidableEq, Repr

/-- Lexicographic `≤` on dates, as `Bool` (Python date comparison). -/
def Date.ble (a b : Date) : Bool :=
  decide (a.year < b.year) ||
    (decide (a.year = b.year) &&
      (decide (a.month < b.month) ||
        (decide (a.month = b.month) && decide (a.day ≤ b.day))))

/-- A timestamp (`datetime.datetime`): a date plus a time-of-day counter. -/
structure DateTime where
  date : Date
  tod : Nat
deriving DecidableEq, Repr

/-- Lexicographic `≤` on timestamps, as `Bool`. -/
def DateTime.ble (a b : DateTime) : Bool :=
  (Date.ble a.date b.date && decide (a.date ≠ b.date)) ||
    (decide (a.date = b.date) && decide (a.tod ≤ b.tod))

/-- Day count of a civil date (days since 0000-03-01, proleptic Gregorian);
the standard `days_from_civil` algorithm, specialised to nonnegative years.
Used to model Python's `date - timedelta(days=n)`. -/
def daysFromCivil (d : Date) : Nat :=
  let y := if d.month ≤ 2 then d.year - 1 else d.year
  let era := y / 400
  let yoe := y % 400
  let mp := (d.month + 9) % 12
  let doy := (153 * mp + 2) / 5 + d.day - 1
  let doe := yoe * 365 + yoe / 4 - yoe / 100 + doy
  era * 146097 + doe

/-- Inverse of `daysFromCivil` (the standard `civil_from_days` algorithm). -/
def civilFromDays (z : Nat) : Date :=
  let era := z / 146097
  let doe := z % 146097
  let yoe := (doe - doe / 1460 + doe / 36524 - doe / 146096) / 365
  let y := yoe + era * 400
  let doy := doe - (365 * yoe + yoe / 4 - yoe / 100)
  let mp := (5 * doy + 2) / 153
  let dd := doy - (153 * mp + 2) / 5 + 1
  let mm := if mp < 10 then mp + 3 else mp - 9
  if mm ≤ 2 then ⟨y + 1, mm, dd⟩ else ⟨y, mm, dd⟩

/-- `d - timedelta(days=n)` on calendar dates. -/
def Date.subDays (d : Date) (n : Nat) : Date :=
  civilFromDays (daysFromCivil d - n)

/-- Row of the `Menu` table (`models.Menu`): id, name, price (paise),
availability flag. -/
structure Menu where
  id : Nat
  name : String
  price : Nat
  is_available : Bool
deriving DecidableEq, Repr

/-- Row of the `Order` table (`models.Order`). -/
structure Order where
  id : Nat
  order_number : String
  total_amount : Nat
  status : OrderStatus
  created_at : DateTime
deriving DecidableEq, Repr

/-- Row of the `OrderItem` table (`models.OrderItem`): FK to its order and
menu item, quantity, and the unit-price snapshot taken at order time. -/
structure OrderItem where
  order_id : Nat
  menu_item_id : Nat
  quantity : Nat
  price : Nat
deriving DecidableEq, Repr

/-- The relational store: the three tables the claims touch, plus the next
auto-generated `Order` primary key. -/
structure Store where
  menu : List Menu
  orders : List Order
  order_items : List OrderItem
  next_order_id : Nat
deriving DecidableEq, Repr

/-- `Menu.objects.get(pk=mid)` / `filter(pk=mid).first()`. -/
def Store.findMenu (s : Store) (mid : Nat) : Option Menu :=
  s.menu.find? (fun m => decide (m.id = mid))

/-- `order_item.menu_item.name` resolved through the FK (defaulting to `""`
for a dangling id, which cannot occur under Django's FK constraint). -/
def Store.menuName (s : Store) (mid : Nat) : String :=
  ((s.findMenu mid).map Menu.name).getD ""

/-- `order.order_items.all()`: the items belonging to one order. -/
def Store.itemsOfOrder (s : Store) (oid : Nat) : List OrderItem :=
  s.order_items.filter (fun it => decide (it.order_id = oid))

/-- A line of the session cart: `cart[str(id)] = id/name/price/quantity`
(`add_to_cart` in `views.py`; price is the snapshot of the menu price). -/
structure CartLine where
  id : Nat
  name : String
  price : Nat
  quantity : Nat
deriving DecidableEq, Repr

/-- `sum(item['quantity'] for item in cart.values())`. -/
def cartCount (cart : List CartLine) : Nat :=
  (cart.map CartLine.quantity).sum

/-- `sum(Decimal(item['price']) * item['quantity'] for item in cart.values())`. -/
def cartTotal (cart : List CartLine) : Nat :=
  (cart.map (fun l => l.price * l.quantity)).sum

/-- JSON response of the AJAX cart endpoints:
`{'success': ..., 'message': ..., 'cart_count': ...}`. -/
structure AjaxResponse where
  success : Bool
  message : String
  cart_count : Option Nat
deriving DecidableEq, Repr

/-- `add_to_cart` (views.py): looks the menu item up with
`get_object_or_404(Menu, pk=menu_item_id, is_available=True)`; on a miss the
raised exception is caught and turned into a `success: False` response with
the cart untouched; otherwise the keyed line's quantity is incremented (or
the line is created with quantity 1 and the current price as snapshot). -/
def add_to_cart (s : Store) (cart : List CartLine) (menu_item_id : Nat) :
    List CartLine × AjaxResponse :=
  match s.menu.find? (fun m => decide (m.id = menu_item_id) && m.is_available) with
  | none => (cart, ⟨false, "No Menu matches the given query.", none⟩)
  | some m =>
    let cart' :=
      if cart.any (fun l => decide (l.id = menu_item_id)) then
        cart.map (fun l =>
          if decide (l.id = menu_item_id) then { l with quantity := l.quantity + 1 } else l)
      else
        cart ++ [⟨menu_item_id, m.name, m.price, 1⟩]
    (cart', ⟨true, m.name ++ " added to cart", some (cartCount cart')⟩)

/-- JSON response of `create_order`. -/
structure CreateOrderResponse where
  success : Bool
  message : String
  order_id : Option Nat
  order_number : Option String
deriving DecidableEq, Repr

/-- The item-creation loop of `create_order`: for each cart line,
`Menu.objects.get(pk=item['id'])` then `OrderItem.objects.create(...)`.
A missing menu item raises `Menu.DoesNotExist`, aborting the loop; the
rows already inserted stay in the store (there is no transaction). -/
def createOrderItems (oid : Nat) : Store → List CartLine → Store × Bool
  | s, [] => (s, true)
  | s, line :: rest =>
    match s.findMenu line.id with
    | none => (s, false)
    | some _ =>
      createOrderItems oid
        { s with order_items :=
            s.order_items ++ [⟨oid, line.id, line.quantity, line.price⟩] } rest

/-- `create_order` (views.py): rejects an empty cart; otherwise computes the
total, inserts the `Order` row (status `pending`, generated order number
passed in as `order_number`, creation time `now`), then runs the item loop.
On success the session cart is cleared; the exception of a failing loop is
caught and reported as `success: False` with the cart left as it was. -/
def create_order (s : Store) (cart : List CartLine) (order_number : String)
    (now : DateTime) : Store × List CartLine × CreateOrderResponse :=
  if cart.isEmpty then
    (s, cart, ⟨false, "Cart is empty", none, none⟩)
  else
    let total_amount := cartTotal cart
    let oid := s.next_order_id
    let s1 : Store :=
      { s with
        orders := s.orders ++ [⟨oid, order_number, total_amount, .pending, now⟩],
        next_order_id := s.next_order_id + 1 }
    match createOrderItems oid s1 cart with
    | (s2, true) =>
      (s2, [], ⟨true, "Order created successfully!", some oid, some order_number⟩)
    | (s2, false) =>
      (s2, cart, ⟨false, "Menu matching query does not exist.", none, none⟩)

/-- `pay_now` (views.py): fetches the order with `get_object_or_404` and then
unconditionally sets `order.status = 'paid'` and saves, whatever the current
status is; the JSON response always reports success when the order exists. -/
def pay_now (s : Store) (order_id : Nat) : Store × AjaxResponse :=
  match s.orders.find? (fun o => decide (o.id = order_id)) with
  | none => (s, ⟨false, "No Order matches the given query.", none⟩)
  | some _ =>
    ({ s with orders := s.orders.map (fun o =>
        if decide (o.id = order_id) then { o with status := .paid } else o) },
     ⟨true, "Order marked as paid!", none⟩)

/-- Decimal digits of a natural number, most significant first, with a fuel
bound on the number of divisions (kept structural so the kernel can
evaluate it). -/
def decDigitsGo : Nat → Nat → List Char
  | 0, _ => []
  | fuel + 1, n =>
    if n < 10 then [Nat.digitChar n]
    else decDigitsGo fuel (n / 10) ++ [Nat.digitChar (n % 10)]

/-- Decimal digits of a natural number, most significant first
(the rendering of a Python `int`); `n` itself bounds the division count. -/
def decDigits (n : Nat) : List Char :=
  decDigitsGo (n + 1) n

/-- Left-pad the decimal rendering of `n` with zeros to width `w`
(Python `%Y`/`%m`/`%d` zero padding in `strftime`). -/
def padNum (w n : Nat) : String :=
  let ds := decDigits n
  ⟨List.replicate (w - ds.length) '0' ++ ds⟩

/-- `timezone.now().strftime('%Y%m%d')`. -/
def dateStamp (d : Date) : String :=
  padNum 4 d.year ++ padNum 2 d.month ++ padNum 2 d.day

/-- `Order.generate_order_number` (models.py):
`f"ORD-{timestamp}-{str(uuid.uuid4())[:8].upper()}"`, with the characters of
the freshly drawn uuid string passed in as `uuid`. -/
def generate_order_number (today : Date) (uuid : List Char) : String :=
  "ORD-" ++ dateStamp today ++ "-" ++ ⟨(uuid.take 8).map Char.toUpper⟩

/-- `Order.save` on a fresh row (models.py) combined with the database's
`unique=True` constraint on `order_number`: the number is generated once; if
it collides with an existing row the insert fails with an integrity error —
there is no regeneration, no retry. -/
def Order.save (s : Store) (today : Date) (uuid : List Char) (total : Nat)
    (status : OrderStatus) (now : DateTime) : Except String Store :=
  let num := generate_order_number today uuid
  if s.orders.any (fun o => decide (o.order_number = num)) then
    .error "UNIQUE constraint failed: billing_app_order.order_number"
  else
    .ok { s with
          orders := s.orders ++ [⟨s.next_order_id, num, total, status, now⟩],
          next_order_id := s.next_order_id + 1 }

/-- The `created_at__gte=user_date_joined` filter applied by every
aggregation when a visibility floor is given. -/
def floorOk (floor : Option DateTime) (o : Order) : Bool :=
  match floor with
  | none => true
  | some f => DateTime.ble f o.created_at

/-- Result of `calculate_daily_sales` (utils.py). -/
structure DailySales where
  date : Date
  total_sales : Nat
  total_orders : Nat
  orders : List Order
deriving DecidableEq, Repr

/-- `calculate_daily_sales` (utils.py): paid orders of the given creation
date, optionally floored; sums `total_amount` and counts the rows. -/
def calculate_daily_sales (s : Store) (d : Date)
    (user_date_joined : Option DateTime) : DailySales :=
  let orders := s.orders.filter (fun o =>
    decide (o.created_at.date = d) && decide (o.status = .paid) &&
      floorOk user_date_joined o)
  { date := d
    total_sales := (orders.map Order.total_amount).sum
    total_orders := orders.length
    orders := orders }

/-- `Order.objects.filter(created_at__date=d, status='paid',
created_at__gte=floor)` — the per-day query of the top-items loops in
`reports_graphs` / `export_top_items_7days_*` (views.py). -/
def paidOrdersOnDate (s : Store) (floor : Option DateTime) (d : Date) :
    List Order :=
  s.orders.filter (fun o =>
    decide (o.created_at.date = d) && decide (o.status = .paid) && floorOk floor o)

/-- `Order.objects.filter(created_at__year=y, created_at__month=m,
status='paid', created_at__gte=floor)` — the per-month query of the
top-items loops in `reports_graphs` / `export_top_items_6months_*`. -/
def paidOrdersInMonth (s : Store) (floor : Option DateTime) (ym : Nat × Nat) :
    List Order :=
  s.orders.filter (fun o =>
    decide (o.created_at.date.year = ym.1) && decide (o.created_at.date.month = ym.2) &&
      decide (o.status = .paid) && floorOk floor o)

/-- `for order in orders: for item in order.order_items.all()`: the order
items reached by iterating a list of orders. -/
def orderLines (s : Store) (orders : List Order) : List OrderItem :=
  orders.flatMap (fun o => s.itemsOfOrder o.id)

/-- The running dict of the top-items loops, as a total map from item name
to accumulated (quantity, revenue); absent keys read as `(0, 0)`, matching
the `if item_name not in top_items` initialisation. -/
def TopMap := String → Nat × Nat

/-- One iteration of the accumulation:
`top_items[name]['quantity'] += item.quantity;
 top_items[name]['revenue'] += item.price * item.quantity`. -/
def topAdd (s : Store) (m : TopMap) (it : OrderItem) : TopMap :=
  fun n =>
    if n = s.menuName it.menu_item_id then
      ((m n).1 + it.quantity, (m n).2 + it.quantity * it.price)
    else m n

/-- Folding the accumulation over a stream of order items, starting from the
empty dict. -/
def runTopItems (s : Store) (lines : List OrderItem) : TopMap :=
  lines.foldl (topAdd s) (fun _ => (0, 0))

/-- The seven dates visited by `for i in range(6, -1, -1):
date = today - timedelta(days=i)`. -/
def daysWindow (today : Date) : List Date :=
  (List.range 7).reverse.map (fun i => today.subDays i)

/-- The six (year, month) pairs visited by `for i in range(5, -1, -1):
target_date = today - timedelta(days=30*i)`. -/
def monthsWindow (today : Date) : List (Nat × Nat) :=
  (List.range 6).reverse.map (fun i =>
    let t := today.subDays (30 * i)
    (t.year, t.month))

/-- The 7-day top-items accumulation of `reports_graphs` /
`export_top_items_7days_excel`: iterate each day of the window, re-running
the per-day order query and accumulating into the dict. -/
def top_items_7days (s : Store) (floor : Option DateTime) (today : Date) :
    TopMap :=
  runTopItems s
    ((daysWindow today).flatMap (fun d => orderLines s (paidOrdersOnDate s floor d)))

/-- The 6-month top-items accumulation of `reports_graphs` /
`export_top_items_6months_pdf`: iterate each 30-day-stepped month of the
window, re-running the per-month order query and accumulating. -/
def top_items_6months (s : Store) (floor : Option DateTime) (today : Date) :
    TopMap :=
  runTopItems s
    ((monthsWindow today).flatMap (fun ym => orderLines s (paidOrdersInMonth s floor ym)))

/-- Single range scan over a window of dates: the order items of paid orders
whose creation date lies in the window (the claim's reference computation,
written from the spec's words for the refinement comparison). -/
def rangeScanDays (s : Store) (floor : Option DateTime) (ds : List Date) :
    List OrderItem :=
  orderLines s (s.orders.filter (fun o =>
    ds.any (fun d => decide (o.created_at.date = d)) &&
      (decide (o.status = .paid) && floorOk floor o)))

/-- Single range scan over a window of (year, month) pairs (the claim's
reference computation for the 6-month report). -/
def rangeScanMonths (s : Store) (floor : Option DateTime)
    (yms : List (Nat × Nat)) : List OrderItem :=
  orderLines s (s.orders.filter (fun o =>
    yms.any (fun ym =>
        decide (o.created_at.date.year = ym.1) && decide (o.created_at.date.month = ym.2)) &&
      (decide (o.status = .paid) && floorOk floor o)))

/-- Total quantity of the order items of a stream that resolve to the given
item name. -/
def sumQty (s : Store) (lines : List OrderItem) (n : String) : Nat :=
  ((lines.filter (fun it => decide (s.menuName it.menu_item_id = n))).map
    OrderItem.quantity).sum

/-- Total revenue (quantity × unit-price snapshot) of the order items of a
stream that resolve to the given item name. -/
def sumRevenue (s : Store) (lines : List OrderItem) (n : String) : Nat :=
  ((lines.filter (fun it => decide (s.menuName it.menu_item_id = n))).map
    (fun it => it.quantity * it.price)).sum

/-- Result of `calculate_yearly_sales` as consumed by
`yearly_sales_report` / `export_yearly_pdf` / `export_yearly_excel`. -/
structure YearlySales where
  total_sales : Nat
  total_orders : Nat
  item_breakdown : TopMap

/-- Modelled from the spec: `calculate_yearly_sales` is imported from
`billing_app.utils` in `views.py` but its definition is not present under
`src/`.  Spec §4.2: aggregates paid Orders with creation date in
`[start_date, end_date]` (optionally floored by the caller's join
timestamp); `item_breakdown` groups the matching OrderItems by MenuItem
name, summing quantity and revenue (quantity × unit price). -/
def calculate_yearly_sales (s : Store) (start_date end_date : Date)
    (user_date_joined : Option DateTime) : YearlySales :=
  let orders := s.orders.filter (fun o =>
    Date.ble start_date o.created_at.date && Date.ble o.created_at.date end_date &&
      decide (o.status = .paid) && floorOk user_date_joined o)
  { total_sales := (orders.map Order.total_amount).sum
    total_orders := orders.length
    item_breakdown := runTopItems s (orderLines s orders) }

/-- The two fractional digits of a two-decimal currency rendering
(Python `f"{x:.2f}"` on a nonnegative two-decimal value). -/
def twoFrac (n : Nat) : List Char :=
  [Nat.digitChar (n / 10 % 10), Nat.digitChar (n % 10)]

/-- `f"{x:.2f}"` on a nonnegative exact two-decimal amount given in paise:
the integer part in decimal, a dot, then exactly two fractional digits. -/
def fmt2 (paise : Nat) : String :=
  ⟨decDigits (paise / 100) ++ '.' :: twoFrac (paise % 100)⟩

/-- Decimal value of a digit character. -/
def charVal (c : Char) : Nat := c.toNat - '0'.toNat

/-- Value of a most-significant-first digit string. -/
def valOfDigits (cs : List Char) : Nat :=
  cs.foldl (fun a c => a * 10 + charVal c) 0

/-- Re-parse a two-decimal currency string back into paise: everything
before the final ".dd" is the integer part, the last two characters the
fractional part. -/
def parse2 (str : String) : Nat :=
  valOfDigits (str.data.take (str.data.length - 3)) * 100 +
    valOfDigits (str.data.drop (str.data.length - 2))

/-- The currency-typed cells emitted by `export_daily_pdf` (views.py), in
document order: the `Total Sales` summary cell and one `Amount` cell per
order row, every one rendered as `f"₹{x:.2f}"`. -/
def export_daily_pdf_currency_cells (ds : DailySales) : List String :=
  ("₹" ++ fmt2 ds.total_sales) :: ds.orders.map (fun o => "₹" ++ fmt2 o.total_amount)

/-- The currency-typed cells emitted by `export_daily_excel` (views.py), in
document order: the `Total Sales` summary cell (`f"₹{...:.2f}"`, cell B4)
and one `Amount` cell per order row — which the source renders as
`f"${order.total_amount:.2f}"`, with a dollar sign. -/
def export_daily_excel_currency_cells (ds : DailySales) : List String :=
  ("₹" ++ fmt2 ds.total_sales) :: ds.orders.map (fun o => "$" ++ fmt2 o.total_amount)

/-! ## Helper lemmas -/

/-- Updating `order_items` leaves menu lookups untouched. -/
theorem findMenu_set_items (s : Store) (its : List OrderItem) (mid : Nat) :
    Store.findMenu { s with order_items := its } mid = s.findMenu mid := rfl

/-- The item loop succeeds when every cart line's menu item exists, and then
appends exactly one `OrderItem` row per cart line, in cart order. -/
theorem createOrderItems_ok (oid : Nat) (cart : List CartLine) :
    ∀ (s : Store), (∀ l ∈ cart, (s.findMenu l.id).isSome) →
      createOrderItems oid s cart =
        ({ s with order_items :=
            s.order_items ++ cart.map (fun l => ⟨oid, l.id, l.quantity, l.price⟩) },
         true) := by
  induction cart with
  | nil => intro s _; simp [createOrderItems]
  | cons line rest ih =>
    intro s h
    obtain ⟨m, hm⟩ := Option.isSome_iff_exists.mp (h line (by simp))
    rw [createOrderItems, hm, ih]
    · simp
    · intro l hl
      rw [findMenu_set_items]
      exact h l (by simp [hl])

/-- The item loop aborts at the first cart line whose menu item is missing;
the rows inserted for the preceding lines remain in the store. -/
theorem createOrderItems_fail (oid : Nat) (pre : List CartLine) (bad : CartLine)
    (rest : List CartLine) :
    ∀ (s : Store), (∀ l ∈ pre, (s.findMenu l.id).isSome) →
      s.findMenu bad.id = none →
      createOrderItems oid s (pre ++ bad :: rest) =
        ({ s with order_items :=
            s.order_items ++ pre.map (fun l => ⟨oid, l.id, l.quantity, l.price⟩) },
         false) := by
  induction pre with
  | nil =>
    intro s _ hbad
    simp [createOrderItems, hbad]
  | cons line p ih =>
    intro s h hbad
    obtain ⟨m, hm⟩ := Option.isSome_iff_exists.mp (h line (by simp))
    rw [List.cons_append, createOrderItems, hm, ih]
    · simp
    · intro l hl
      rw [findMenu_set_items]
      exact h l (by simp [hl])
    · rw [findMenu_set_items]
      exact hbad

/-! ## Claims -/

/-- **C4** (confirmed).  For every non-empty cart all of whose referenced
menu items exist, `create_order` succeeds; the persisted `Order` carries
`total_amount = cartTotal cart` — the exact decimal sum of
quantity × unit-price-snapshot over the cart lines — and status `pending`;
exactly one `OrderItem` row is persisted per cart line, carrying the cart's
snapshot price and quantity; and the caller's cart is empty afterwards. -/
theorem claim_C4_create_order_success (s : Store) (cart : List CartLine)
    (order_number : String) (now : DateTime)
    (hne : cart ≠ [])
    (hmenu : ∀ l ∈ cart, (s.findMenu l.id).isSome) :
    create_order s cart order_number now =
      ({ s with
          orders := s.orders ++
            [⟨s.next_order_id, order_number, cartTotal cart, .pending, now⟩],
          order_items := s.order_items ++
            cart.map (fun l => ⟨s.next_order_id, l.id, l.quantity, l.price⟩),
          next_order_id := s.next_order_id + 1 },
       [],
       ⟨true, "Order created successfully!", some s.next_order_id,
        some order_number⟩) ∧
    cartTotal cart = (cart.map (fun l => l.quantity * l.price)).sum := by
  constructor
  · have hloop := createOrderItems_ok s.next_order_id cart
      { s with
        orders := s.orders ++
          [⟨s.next_order_id, order_number, cartTotal cart, .pending, now⟩],
        next_order_id := s.next_order_id + 1 }
      (fun l hl => hmenu l hl)
    simp only [create_order]
    rw [if_neg (by simpa [List.isEmpty_iff] using hne), hloop]
  · simp [cartTotal, Nat.mul_comm]

/-- Witness for C4: the spec's scenario — cart `{ItemA: qty 2 @ 15.00,
ItemB: qty 1 @ 40.00}` creates an order with `total_amount = 70.00`,
two `OrderItem` rows, status pending, and clears the cart. -/
theorem claim_C4_witness :
    create_order ⟨[⟨1, "ItemA", 1500, true⟩, ⟨2, "ItemB", 4000, true⟩], [], [], 0⟩
        [⟨1, "ItemA", 1500, 2⟩, ⟨2, "ItemB", 4000, 1⟩] "ORD-20240105-AAAAAAAA"
        ⟨⟨2024, 1, 5⟩, 0⟩ =
      (⟨[⟨1, "ItemA", 1500, true⟩, ⟨2, "ItemB", 4000, true⟩],
        [⟨0, "ORD-20240105-AAAAAAAA", 7000, .pending, ⟨⟨2024, 1, 5⟩, 0⟩⟩],
        [⟨0, 1, 2, 1500⟩, ⟨0, 2, 1, 4000⟩], 1⟩,
       [],
       ⟨true, "Order created successfully!", some 0,
        some "ORD-20240105-AAAAAAAA"⟩) := by
  have h := claim_C4_create_order_success
    ⟨[⟨1, "ItemA", 1500, true⟩, ⟨2, "ItemB", 4000, true⟩], [], [], 0⟩
    [⟨1, "ItemA", 1500, 2⟩, ⟨2, "ItemB", 4000, 1⟩] "ORD-20240105-AAAAAAAA"
    ⟨⟨2024, 1, 5⟩, 0⟩ (by decide) (by decide)
  rw [h.1]
  rfl

/-- **C5** (confirmed).  On an empty cart `create_order` fails with a
`success: false` message, persists nothing (the store is returned exactly as
it was, so no `Order` and no `OrderItem` row is created), and the cart is
unchanged. -/
theorem claim_C5_create_order_empty_cart (s : Store) (order_number : String)
    (now : DateTime) :
    create_order s [] order_number now =
      (s, [], ⟨false, "Cart is empty", none, none⟩) := rfl

/-- **C1** (amended).  `create_order` is *not* all-or-nothing: when a cart
line references a missing menu item, the operation returns a failure
response and leaves the cart as it was, but the already-inserted `Order` row
(with the full cart's total) and the `OrderItem` rows of the preceding cart
lines remain visible in the store — there is no enclosing transaction and no
rollback. -/
theorem claim_C1_amended (s : Store) (pre : List CartLine) (bad : CartLine)
    (rest : List CartLine) (order_number : String) (now : DateTime)
    (hpre : ∀ l ∈ pre, (s.findMenu l.id).isSome)
    (hbad : s.findMenu bad.id = none) :
    create_order s (pre ++ bad :: rest) order_number now =
      ({ s with
          orders := s.orders ++
            [⟨s.next_order_id, order_number, cartTotal (pre ++ bad :: rest),
              .pending, now⟩],
          order_items := s.order_items ++
            pre.map (fun l => ⟨s.next_order_id, l.id, l.quantity, l.price⟩),
          next_order_id := s.next_order_id + 1 },
       pre ++ bad :: rest,
       ⟨false, "Menu matching query does not exist.", none, none⟩) := by
  have hloop := createOrderItems_fail s.next_order_id pre bad rest
    { s with
      orders := s.orders ++
        [⟨s.next_order_id, order_number, cartTotal (pre ++ bad :: rest),
          .pending, now⟩],
      next_order_id := s.next_order_id + 1 }
    (fun l hl => hpre l hl) hbad
  simp only [create_order]
  rw [if_neg (by simp [List.isEmpty_iff]), hloop]

/-- Counterexample to C1 as stated: a two-line cart whose second line
references menu item 2, which does not exist.  `create_order` reports
failure, yet afterwards the store holds one `Order` row whose item set
covers only the first cart line — a partial order remains visible. -/
theorem claim_C1_counterexample :
    ((create_order ⟨[⟨1, "Tea", 500, true⟩], [], [], 0⟩
        [⟨1, "Tea", 500, 1⟩, ⟨2, "Ghost", 300, 2⟩] "ORD-20240105-BBBBBBBB"
        ⟨⟨2024, 1, 5⟩, 0⟩).2.2.success = false) ∧
    ((create_order ⟨[⟨1, "Tea", 500, true⟩], [], [], 0⟩
        [⟨1, "Tea", 500, 1⟩, ⟨2, "Ghost", 300, 2⟩] "ORD-20240105-BBBBBBBB"
        ⟨⟨2024, 1, 5⟩, 0⟩).1.orders.length = 1) ∧
    (((create_order ⟨[⟨1, "Tea", 500, true⟩], [], [], 0⟩
        [⟨1, "Tea", 500, 1⟩, ⟨2, "Ghost", 300, 2⟩] "ORD-20240105-BBBBBBBB"
        ⟨⟨2024, 1, 5⟩, 0⟩).1.itemsOfOrder 0).length = 1) := by decide

/-- Witness for C1 (amended): a concrete instance of the amended theorem,
hypotheses discharged by evaluation. -/
theorem claim_C1_witness :
    create_order ⟨[⟨1, "Tea", 500, true⟩], [], [], 0⟩
        [⟨1, "Tea", 500, 1⟩, ⟨2, "Ghost", 300, 2⟩] "ORD-20240105-BBBBBBBB"
        ⟨⟨2024, 1, 5⟩, 0⟩ =
      (⟨[⟨1, "Tea", 500, true⟩],
        [⟨0, "ORD-20240105-BBBBBBBB", 1100, .pending, ⟨⟨2024, 1, 5⟩, 0⟩⟩],
        [⟨0, 1, 1, 500⟩], 1⟩,
       [⟨1, "Tea", 500, 1⟩, ⟨2, "Ghost", 300, 2⟩],
       ⟨false, "Menu matching query does not exist.", none, none⟩) := by
  have h := claim_C1_amended ⟨[⟨1, "Tea", 500, true⟩], [], [], 0⟩
    [⟨1, "Tea", 500, 1⟩] ⟨2, "Ghost", 300, 2⟩ [] "ORD-20240105-BBBBBBBB"
    ⟨⟨2024, 1, 5⟩, 0⟩ (by decide) (by decide)
  exact h

/-- **C2** (amended).  `pay_now` on an existing order unconditionally sets
its status to `paid` — whatever the current status — and returns success;
every other order keeps its row.  In particular a `paid` order stays `paid`
(the transition is idempotent there), but a `cancelled` order is moved to
`paid`, so `cancelled` is not terminal. -/
theorem claim_C2_amended (s : Store) (order_id : Nat) (o : Order)
    (h : s.orders.find? (fun o' => decide (o'.id = order_id)) = some o) :
    pay_now s order_id =
      ({ s with orders := s.orders.map (fun o' =>
          if decide (o'.id = order_id) then { o' with status := .paid } else o') },
       ⟨true, "Order marked as paid!", none⟩) := by
  rw [pay_now, h]

/-- Counterexample to C2 as stated: an order in the terminal state
`cancelled` is transitioned to `paid` by `pay_now`, which still reports
success — its status does not stay unchanged. -/
theorem claim_C2_counterexample :
    (pay_now ⟨[], [⟨1, "ORD-20240105-CCCCCCCC", 1000, .cancelled,
        ⟨⟨2024, 1, 5⟩, 0⟩⟩], [], 2⟩ 1).1.orders =
      [⟨1, "ORD-20240105-CCCCCCCC", 1000, .paid, ⟨⟨2024, 1, 5⟩, 0⟩⟩] ∧
    (pay_now ⟨[], [⟨1, "ORD-20240105-CCCCCCCC", 1000, .cancelled,
        ⟨⟨2024, 1, 5⟩, 0⟩⟩], [], 2⟩ 1).2.success = true := by decide

/-- Witness for C2 (amended): the amended theorem applied to a store holding
one pending order. -/
theorem claim_C2_witness :
    pay_now ⟨[], [⟨1, "ORD-20240105-DDDDDDDD", 1000, .pending,
        ⟨⟨2024, 1, 5⟩, 0⟩⟩], [], 2⟩ 1 =
      (⟨[], [⟨1, "ORD-20240105-DDDDDDDD", 1000, .paid, ⟨⟨2024, 1, 5⟩, 0⟩⟩],
        [], 2⟩,
       ⟨true, "Order marked as paid!", none⟩) := by
  have h := claim_C2_amended ⟨[], [⟨1, "ORD-20240105-DDDDDDDD", 1000, .pending,
    ⟨⟨2024, 1, 5⟩, 0⟩⟩], [], 2⟩ 1
    ⟨1, "ORD-20240105-DDDDDDDD", 1000, .pending, ⟨⟨2024, 1, 5⟩, 0⟩⟩ (by decide)
  rw [h]
  rfl

/-- **C6** (confirmed).  `calculate_daily_sales` counts only paid orders of
the given creation date: adding a non-paid order to the store leaves the
result unchanged, `total_sales` is the sum of `total_amount` over exactly
the paid orders of that date (within the visibility floor), and
`total_orders` is their count. -/
theorem claim_C6_daily_sales_paid_only (s : Store) (d : Date)
    (floor : Option DateTime) (o : Order) (h : o.status ≠ .paid) :
    calculate_daily_sales { s with orders := o :: s.orders } d floor
        = calculate_daily_sales s d floor ∧
    (calculate_daily_sales s d floor).total_sales
        = ((s.orders.filter (fun o' =>
            decide (o'.created_at.date = d) && decide (o'.status = .paid) &&
              floorOk floor o')).map Order.total_amount).sum ∧
    (calculate_daily_sales s d floor).total_orders
        = (s.orders.filter (fun o' =>
            decide (o'.created_at.date = d) && decide (o'.status = .paid) &&
              floorOk floor o')).length := by
  refine ⟨?_, rfl, rfl⟩
  have hp : decide (o.status = OrderStatus.paid) = false := by
    simpa using h
  simp [calculate_daily_sales, List.filter_cons, hp]

/-- Witness for C6: the spec's scenario — one paid order of 100.00 and one
pending order of 50.00 on the same day yield `total_sales = 100.00` and
`total_orders = 1`. -/
theorem claim_C6_witness :
    (calculate_daily_sales
        ⟨[], [⟨1, "B", 5000, .pending, ⟨⟨2024, 1, 15⟩, 1⟩⟩,
              ⟨0, "A", 10000, .paid, ⟨⟨2024, 1, 15⟩, 0⟩⟩], [], 2⟩
        ⟨2024, 1, 15⟩ none).total_sales = 10000 ∧
    (calculate_daily_sales
        ⟨[], [⟨1, "B", 5000, .pending, ⟨⟨2024, 1, 15⟩, 1⟩⟩,
              ⟨0, "A", 10000, .paid, ⟨⟨2024, 1, 15⟩, 0⟩⟩], [], 2⟩
        ⟨2024, 1, 15⟩ none).total_orders = 1 := by
  have h := claim_C6_daily_sales_paid_only
    ⟨[], [⟨0, "A", 10000, .paid, ⟨⟨2024, 1, 15⟩, 0⟩⟩], [], 2⟩
    ⟨2024, 1, 15⟩ none ⟨1, "B", 5000, .pending, ⟨⟨2024, 1, 15⟩, 1⟩⟩ (by decide)
  exact ⟨by rw [h.1]; rfl, by rw [h.1]; rfl⟩

/-! ### Aggregation-map lemmas -/

/-- Reading the accumulated dict at a name yields the starting value plus
the total quantity and revenue of the matching items of the stream. -/
theorem foldl_topAdd_apply (s : Store) (lines : List OrderItem) :
    ∀ (m : TopMap) (n : String),
      (lines.foldl (topAdd s) m) n
        = ((m n).1 + sumQty s lines n, (m n).2 + sumRevenue s lines n) := by
  induction lines with
  | nil => intro m n; simp [sumQty, sumRevenue]
  | cons it rest ih =>
    intro m n
    rw [List.foldl_cons, ih]
    by_cases h : s.menuName it.menu_item_id = n
    · subst h
      simp [topAdd, sumQty, sumRevenue, List.filter_cons, Prod.ext_iff]
      omega
    · have h' : ¬(n = s.menuName it.menu_item_id) := fun hh => h hh.symm
      simp [topAdd, sumQty, sumRevenue, List.filter_cons, h, h']

/-- The dict built by the top-items loops reads back, at every name, exactly
the total quantity and total revenue of the matching items of the iterated
stream. -/
theorem runTopItems_apply (s : Store) (lines : List OrderItem) (n : String) :
    runTopItems s lines n = (sumQty s lines n, sumRevenue s lines n) := by
  rw [runTopItems, foldl_topAdd_apply]
  simp

/-- A filtered weighted sum over a flattened iteration is the sum of the
per-block filtered weighted sums. -/
theorem filtered_sum_flatMap {κ α : Type} (g : κ → List α) (p : α → Bool)
    (w : α → Nat) (ks : List κ) :
    (((ks.flatMap g).filter p).map w).sum
      = (ks.map (fun k => (((g k).filter p).map w).sum)).sum := by
  induction ks with
  | nil => rfl
  | cons k ks ih => simp [List.filter_append, ih]

/-- A weighted sum over a filter by a disjunction of disjoint predicates
splits into the two filtered sums. -/
theorem filtered_sum_or {α : Type} (os : List α) (p q : α → Bool) (w : α → Nat)
    (hdisj : ∀ a, p a = true → q a = false) :
    ((os.filter (fun a => p a || q a)).map w).sum
      = ((os.filter p).map w).sum + ((os.filter q).map w).sum := by
  induction os with
  | nil => rfl
  | cons a os ih =>
    by_cases hp : p a = true
    · have hq := hdisj a hp
      simp [List.filter_cons, hp, hq, ih]
      omega
    · simp only [Bool.not_eq_true] at hp
      by_cases hq : q a = true
      · simp [List.filter_cons, hp, hq, ih]
        omega
      · simp only [Bool.not_eq_true] at hq
        simp [List.filter_cons, hp, hq, ih]

/-- Iterating pairwise-distinct periods and summing the per-period filtered
weighted sums equals one weighted sum over the rows whose key lies in the
window — provided the per-period predicate can hold for at most one key. -/
theorem window_split {κ α : Type} (os : List α) (base : α → Bool)
    (pred : α → κ → Bool) (F : α → Nat) :
    ∀ ks : List κ, ks.Nodup →
      (∀ o k k', pred o k = true → pred o k' = true → k = k') →
      (ks.map (fun k =>
          ((os.filter (fun o => pred o k && base o)).map F).sum)).sum
        = ((os.filter (fun o => ks.any (fun k => pred o k) && base o)).map F).sum := by
  intro ks
  induction ks with
  | nil => intro _ _; simp
  | cons k ks ih =>
    intro hnd hkey
    obtain ⟨hk, hnd'⟩ := List.nodup_cons.mp hnd
    rw [List.map_cons, List.sum_cons, ih hnd' hkey]
    rw [← filtered_sum_or os _ _ F ?hdisj]
    · apply congrArg
      apply congrArg
      apply List.filter_congr
      intro o _
      rw [List.any_cons]
      cases pred o k <;> cases base o <;> simp
    case hdisj =>
      intro o hpo
      have hpk : pred o k = true := by
        cases hpk : pred o k
        · rw [hpk] at hpo; simp at hpo
        · rfl
      cases hany : ks.any (fun k' => pred o k')
      · simp
      · obtain ⟨k', hk', hpk'⟩ := List.any_eq_true.mp hany
        exact absurd (hkey o k k' hpk hpk' ▸ hk') hk

/-- Per-period iteration over pairwise-distinct periods agrees, at the level
of filtered weighted sums over the reached order items, with the single
range scan over the whole window. -/
theorem windowLines_eq {κ : Type} (s : Store) (w : OrderItem → Nat)
    (base : Order → Bool) (pred : Order → κ → Bool) (n : String)
    (ks : List κ) (hnd : ks.Nodup)
    (hkey : ∀ o k k', pred o k = true → pred o k' = true → k = k') :
    (((ks.flatMap (fun k =>
          orderLines s (s.orders.filter (fun o => pred o k && base o)))).filter
        (fun it => decide (s.menuName it.menu_item_id = n))).map w).sum
      = (((orderLines s (s.orders.filter
            (fun o => ks.any (fun k => pred o k) && base o))).filter
          (fun it => decide (s.menuName it.menu_item_id = n))).map w).sum := by
  have hG : ∀ os : List Order,
      (((orderLines s os).filter
          (fun it => decide (s.menuName it.menu_item_id = n))).map w).sum
        = (os.map (fun o =>
            (((s.itemsOfOrder o.id).filter
              (fun it => decide (s.menuName it.menu_item_id = n))).map w).sum)).sum := by
    intro os
    unfold orderLines
    exact filtered_sum_flatMap _ _ _ _
  rw [filtered_sum_flatMap, List.map_congr_left (fun k _ => hG
        (s.orders.filter (fun o => pred o k && base o))),
      window_split s.orders base pred _ ks hnd hkey, ← hG]

/-- Reassociation of the per-day filter so that the date test forms the key
predicate and the paid/floor tests the base predicate. -/
theorem paidOrdersOnDate_eq (s : Store) (floor : Option DateTime) (d : Date) :
    paidOrdersOnDate s floor d
      = s.orders.filter (fun o =>
          decide (o.created_at.date = d) &&
            (decide (o.status = .paid) && floorOk floor o)) := by
  unfold paidOrdersOnDate
  apply List.filter_congr
  intro o _
  exact Bool.and_assoc _ _ _

/-- Reassociation of the month filter so that the (year, month) test forms
one key predicate. -/
theorem paidOrdersInMonth_eq (s : Store) (floor : Option DateTime)
    (ym : Nat × Nat) :
    paidOrdersInMonth s floor ym
      = s.orders.filter (fun o =>
          (decide (o.created_at.date.year = ym.1) &&
              decide (o.created_at.date.month = ym.2)) &&
            (decide (o.status = .paid) && floorOk floor o)) := by
  unfold paidOrdersInMonth
  apply List.filter_congr
  intro o _
  exact Bool.and_assoc _ _ _

set_option maxHeartbeats 3200000 in
/-- **C3** (amended).  The per-period top-items accumulation agrees with a
single range scan over the window — for every item name, the accumulated
quantity is the sum of the per-order-item quantities and the accumulated
revenue is Σ quantity × unit price — *provided* the list of visited periods
has no duplicates.  The seven dates of the 7-day window are consecutive
calendar days, so that proviso holds there; the 6-month window, however, is
stepped by `timedelta(days=30*i)` and can visit the same calendar month
twice, in which case that month's items are double-counted (see the
counterexample at `today = 2024-01-31`). -/
theorem claim_C3_top_items_amended (s : Store) (floor : Option DateTime)
    (today : Date) (n : String) :
    ((daysWindow today).Nodup →
      top_items_7days s floor today n
        = (sumQty s (rangeScanDays s floor (daysWindow today)) n,
           sumRevenue s (rangeScanDays s floor (daysWindow today)) n)) ∧
    ((monthsWindow today).Nodup →
      top_items_6months s floor today n
        = (sumQty s (rangeScanMonths s floor (monthsWindow today)) n,
           sumRevenue s (rangeScanMonths s floor (monthsWindow today)) n)) := by
  constructor
  · intro hnd
    have hkey : ∀ (o : Order) (k k' : Date),
        decide (o.created_at.date = k) = true →
        decide (o.created_at.date = k') = true → k = k' := by
      intro o k k' h1 h2
      exact (of_decide_eq_true h1).symm.trans (of_decide_eq_true h2)
    rw [top_items_7days, runTopItems_apply]
    simp only [paidOrdersOnDate_eq]
    refine Prod.ext ?_ ?_
    · exact windowLines_eq s OrderItem.quantity
        (fun o => decide (o.status = .paid) && floorOk floor o)
        (fun o d => decide (o.created_at.date = d)) n (daysWindow today) hnd hkey
    · exact windowLines_eq s (fun it => it.quantity * it.price)
        (fun o => decide (o.status = .paid) && floorOk floor o)
        (fun o d => decide (o.created_at.date = d)) n (daysWindow today) hnd hkey
  · intro hnd
    have hkey : ∀ (o : Order) (k k' : Nat × Nat),
        (decide (o.created_at.date.year = k.1) &&
          decide (o.created_at.date.month = k.2)) = true →
        (decide (o.created_at.date.year = k'.1) &&
          decide (o.created_at.date.month = k'.2)) = true → k = k' := by
      intro o k k' h1 h2
      obtain ⟨hy1, hm1⟩ := Bool.and_eq_true_iff.mp h1
      obtain ⟨hy2, hm2⟩ := Bool.and_eq_true_iff.mp h2
      have := (of_decide_eq_true hy1).symm.trans (of_decide_eq_true hy2)
      have := (of_decide_eq_true hm1).symm.trans (of_decide_eq_true hm2)
      exact Prod.ext (by omega) (by omega)
    rw [top_items_6months, runTopItems_apply]
    simp only [paidOrdersInMonth_eq]
    unfold sumQty sumRevenue rangeScanMonths
    refine Prod.ext ?_ ?_
    · exact windowLines_eq s OrderItem.quantity
        (fun o => decide (o.status = .paid) && floorOk floor o)
        (fun o ym => decide (o.created_at.date.year = ym.1) &&
          decide (o.created_at.date.month = ym.2)) n (monthsWindow today) hnd hkey
    · exact windowLines_eq s (fun it => it.quantity * it.price)
        (fun o => decide (o.status = .paid) && floorOk floor o)
        (fun o ym => decide (o.created_at.date.year = ym.1) &&
          decide (o.created_at.date.month = ym.2)) n (monthsWindow today) hnd hkey

/-- The store of the C3 counterexample and witness: one menu item "Tea" and
a single paid order of 2024-01-15 containing one Tea at 1.00. -/
def exStoreC3 : Store :=
  ⟨[⟨1, "Tea", 100, true⟩],
   [⟨0, "ORD-20240115-EEEEEEEE", 100, .paid, ⟨⟨2024, 1, 15⟩, 0⟩⟩],
   [⟨0, 1, 1, 100⟩], 1⟩

/-- Counterexample to C3 as stated: with `today = 2024-01-31` the six
30-day-stepped offsets visit January 2024 twice, so the 6-month iteration
counts the single Tea order item twice (quantity 2, revenue 2.00), while
the single range scan over the window counts it once (quantity 1,
revenue 1.00). -/
theorem claim_C3_counterexample :
    monthsWindow ⟨2024, 1, 31⟩
      = [(2023, 9), (2023, 10), (2023, 11), (2023, 12), (2024, 1), (2024, 1)] ∧
    top_items_6months exStoreC3 none ⟨2024, 1, 31⟩ "Tea" = (2, 200) ∧
    sumQty exStoreC3
      (rangeScanMonths exStoreC3 none (monthsWindow ⟨2024, 1, 31⟩)) "Tea" = 1 ∧
    sumRevenue exStoreC3
      (rangeScanMonths exStoreC3 none (monthsWindow ⟨2024, 1, 31⟩)) "Tea" = 100 := by
  decide

/-- Witness for C3 (amended): at `today = 2024-03-15` both windows are
duplicate-free, and the amended theorem yields the agreement of iteration
and range scan on the concrete store. -/
theorem claim_C3_witness :
    (daysWindow ⟨2024, 3, 15⟩).Nodup ∧ (monthsWindow ⟨2024, 3, 15⟩).Nodup ∧
    top_items_7days exStoreC3 none ⟨2024, 3, 15⟩ "Tea"
      = (sumQty exStoreC3
          (rangeScanDays exStoreC3 none (daysWindow ⟨2024, 3, 15⟩)) "Tea",
         sumRevenue exStoreC3
          (rangeScanDays exStoreC3 none (daysWindow ⟨2024, 3, 15⟩)) "Tea") ∧
    top_items_6months exStoreC3 none ⟨2024, 3, 15⟩ "Tea"
      = (sumQty exStoreC3
          (rangeScanMonths exStoreC3 none (monthsWindow ⟨2024, 3, 15⟩)) "Tea",
         sumRevenue exStoreC3
          (rangeScanMonths exStoreC3 none (monthsWindow ⟨2024, 3, 15⟩)) "Tea") := by
  refine ⟨by decide, by decide, ?_, ?_⟩
  · exact (claim_C3_top_items_amended exStoreC3 none ⟨2024, 3, 15⟩ "Tea").1
      (by decide)
  · exact (claim_C3_top_items_amended exStoreC3 none ⟨2024, 3, 15⟩ "Tea").2
      (by decide)

/-- **C9** (confirmed, against the spec-modelled `calculate_yearly_sales`).
For every start date, end date and visibility floor, `total_sales` and
`total_orders` aggregate exactly the paid orders created in
`[start_date, end_date]` (within the floor), and the item breakdown read at
any name gives the total quantity and the total revenue
(quantity × unit price) of the matching order items grouped by that
MenuItem name. -/
theorem claim_C9_yearly_sales (s : Store) (start_date end_date : Date)
    (floor : Option DateTime) (n : String) :
    (calculate_yearly_sales s start_date end_date floor).total_sales
      = ((s.orders.filter (fun o =>
          Date.ble start_date o.created_at.date &&
            Date.ble o.created_at.date end_date &&
            decide (o.status = .paid) && floorOk floor o)).map
          Order.total_amount).sum ∧
    (calculate_yearly_sales s start_date end_date floor).total_orders
      = (s.orders.filter (fun o =>
          Date.ble start_date o.created_at.date &&
            Date.ble o.created_at.date end_date &&
            decide (o.status = .paid) && floorOk floor o)).length ∧
    (calculate_yearly_sales s start_date end_date floor).item_breakdown n
      = (sumQty s (orderLines s (s.orders.filter (fun o =>
            Date.ble start_date o.created_at.date &&
              Date.ble o.created_at.date end_date &&
              decide (o.status = .paid) && floorOk floor o))) n,
         sumRevenue s (orderLines s (s.orders.filter (fun o =>
            Date.ble start_date o.created_at.date &&
              Date.ble o.created_at.date end_date &&
              decide (o.status = .paid) && floorOk floor o))) n) :=
  ⟨rfl, rfl, runTopItems_apply _ _ _⟩

/-! ### Decimal-rendering lemmas -/

/-- Value of a digit string extended by one digit. -/
theorem valOfDigits_append (ds : List Char) (c : Char) :
    valOfDigits (ds ++ [c]) = valOfDigits ds * 10 + charVal c := by
  simp [valOfDigits, List.foldl_append]

/-- `charVal` inverts `Nat.digitChar` on single digits. -/
theorem charVal_digitChar (n : Nat) (h : n < 10) :
    charVal (Nat.digitChar n) = n := by
  interval_cases n <;> rfl

/-- The fueled digit rendering parses back to the value when the fuel
suffices. -/
theorem valOfDigits_decDigitsGo :
    ∀ fuel n, n < fuel → valOfDigits (decDigitsGo fuel n) = n := by
  intro fuel
  induction fuel with
  | zero => intro n h; omega
  | succ fuel ih =>
    intro n h
    rw [decDigitsGo]
    by_cases h10 : n < 10
    · rw [if_pos h10]
      simpa [valOfDigits] using charVal_digitChar n h10
    · have hdiv : n / 10 < fuel := by
        have := Nat.div_lt_self (show 0 < n by omega) (show 1 < 10 by omega)
        omega
      rw [if_neg h10, valOfDigits_append, ih (n / 10) hdiv,
        charVal_digitChar _ (by omega)]
      omega

/-- The decimal rendering of a natural number parses back to it. -/
theorem valOfDigits_decDigits (n : Nat) : valOfDigits (decDigits n) = n :=
  valOfDigits_decDigitsGo (n + 1) n (by omega)

/-- Round trip of the currency rendering: re-parsing a rendered two-decimal
currency value yields the amount back exactly — no silent rounding. -/
theorem parse2_fmt2 (v : Nat) : parse2 (fmt2 v) = v := by
  have hd : (fmt2 v).data = decDigits (v / 100) ++ '.' :: twoFrac (v % 100) := rfl
  unfold parse2
  rw [hd]
  have h1 : (decDigits (v / 100) ++ '.' :: twoFrac (v % 100)).length
      = (decDigits (v / 100)).length + 3 := by
    simp [twoFrac]
  rw [h1]
  have ht : (decDigits (v / 100) ++ '.' :: twoFrac (v % 100)).take
      ((decDigits (v / 100)).length + 3 - 3) = decDigits (v / 100) := by
    rw [show (decDigits (v / 100)).length + 3 - 3
        = (decDigits (v / 100)).length by omega]
    exact List.take_left _ _
  have hdp : (decDigits (v / 100) ++ '.' :: twoFrac (v % 100)).drop
      ((decDigits (v / 100)).length + 3 - 2) = twoFrac (v % 100) := by
    rw [show (decDigits (v / 100)).length + 3 - 2
        = (decDigits (v / 100)).length + 1 by omega]
    rw [show decDigits (v / 100) ++ '.' :: twoFrac (v % 100)
        = (decDigits (v / 100) ++ ['.']) ++ twoFrac (v % 100) by simp]
    rw [show (decDigits (v / 100)).length + 1
        = (decDigits (v / 100) ++ ['.']).length by simp]
    exact List.drop_left _ _
  rw [ht, hdp, valOfDigits_decDigits]
  have hf : valOfDigits (twoFrac (v % 100))
      = (v % 100 / 10 % 10) * 10 + v % 100 % 10 := by
    show (0 * 10 + charVal (Nat.digitChar (v % 100 / 10 % 10))) * 10 +
        charVal (Nat.digitChar (v % 100 % 10)) = _
    rw [charVal_digitChar _ (by omega), charVal_digitChar _ (by omega)]
    omega
  rw [hf]
  omega

/-- **C8** (amended).  Every currency cell of the daily exports renders the
exact value with exactly two decimal places (the fractional part is the
two-character `twoFrac`, and re-parsing any rendered value yields it back,
with 1234.50 rendering as "1234.50"); the PDF export prefixes every cell
with `₹`, and the Excel export prefixes its summary cell with `₹` — but its
per-order amount cells with `$`, so a single fixed currency symbol is *not*
used consistently across all cells. -/
theorem claim_C8_currency_cells_amended (ds : DailySales) :
    (∀ c ∈ export_daily_pdf_currency_cells ds, ∃ v, c = "₹" ++ fmt2 v) ∧
    (export_daily_excel_currency_cells ds).head?
      = some ("₹" ++ fmt2 ds.total_sales) ∧
    (∀ c ∈ (export_daily_excel_currency_cells ds).tail, ∃ v, c = "$" ++ fmt2 v) ∧
    (∀ v, fmt2 v = ⟨decDigits (v / 100) ++ '.' :: twoFrac (v % 100)⟩ ∧
      (twoFrac (v % 100)).length = 2 ∧ parse2 (fmt2 v) = v) ∧
    fmt2 123450 = "1234.50" := by
  refine ⟨?_, rfl, ?_, fun v => ⟨rfl, rfl, parse2_fmt2 v⟩, by decide⟩
  · intro c hc
    rw [export_daily_pdf_currency_cells] at hc
    rcases List.mem_cons.mp hc with h | h
    · exact ⟨ds.total_sales, h⟩
    · obtain ⟨o, _, rfl⟩ := List.mem_map.mp h
      exact ⟨o.total_amount, rfl⟩
  · intro c hc
    rw [export_daily_excel_currency_cells] at hc
    obtain ⟨o, _, rfl⟩ := List.mem_map.mp hc
    exact ⟨o.total_amount, rfl⟩

/-- Witness for C8 (amended): the amended theorem instantiated at a concrete
daily-sales result yields the exact round trip of 1234.50. -/
theorem claim_C8_witness :
    parse2 (fmt2 123450) = 123450 ∧ fmt2 123450 = "1234.50" := by
  have h := claim_C8_currency_cells_amended
    (calculate_daily_sales ⟨[], [], [], 0⟩ ⟨2024, 1, 5⟩ none)
  exact ⟨(h.2.2.2.1 123450).2.2, h.2.2.2.2⟩

/-- Counterexample to C8 as stated: a store with one paid order of 1234.50
on the report date.  The daily PDF renders both its currency cells with `₹`,
but the daily Excel export renders the summary cell with `₹` and the
per-order amount cell with `$` — two different symbols across the report
renderers, though both keep the exact two decimals. -/
theorem claim_C8_counterexample :
    export_daily_pdf_currency_cells
        (calculate_daily_sales
          ⟨[], [⟨0, "ORD-20240105-FFFFFFFF", 123450, .paid, ⟨⟨2024, 1, 5⟩, 0⟩⟩],
           [], 1⟩ ⟨2024, 1, 5⟩ none)
      = ["₹1234.50", "₹1234.50"] ∧
    export_daily_excel_currency_cells
        (calculate_daily_sales
          ⟨[], [⟨0, "ORD-20240105-FFFFFFFF", 123450, .paid, ⟨⟨2024, 1, 5⟩, 0⟩⟩],
           [], 1⟩ ⟨2024, 1, 5⟩ none)
      = ["₹1234.50", "$1234.50"] ∧
    ("₹1234.50" : String).data.head? ≠ ("$1234.50" : String).data.head? := by
  decide

/-- The sixteen lowercase hexadecimal digit characters — the alphabet of
`str(uuid.uuid4())` apart from its hyphens. -/
def lowerHexDigits : List Char := "0123456789abcdef".toList

/-- The sixteen uppercase hexadecimal digit characters. -/
def upperHexDigits : List Char := "0123456789ABCDEF".toList

/-- Rendering length of a natural number below `10^k`, for any fuel. -/
theorem decDigitsGo_length_le :
    ∀ fuel n k, n < 10 ^ k → 1 ≤ k → (decDigitsGo fuel n).length ≤ k := by
  intro fuel
  induction fuel with
  | zero =>
    intro n k _ _
    simp [decDigitsGo]
  | succ fuel ih =>
    intro n k hn hk
    rw [decDigitsGo]
    by_cases h : n < 10
    · rw [if_pos h]
      simp
      omega
    · rw [if_neg h]
      have hk1 : 1 ≤ k - 1 := by
        rcases k with _ | _ | k
        · omega
        · simp at hn; omega
        · omega
      have hdiv : n / 10 < 10 ^ (k - 1) := by
        rw [Nat.div_lt_iff_lt_mul (by omega)]
        calc n < 10 ^ k := hn
        _ = 10 ^ (k - 1) * 10 := by
              conv_lhs => rw [show k = (k - 1) + 1 by omega]
              rw [Nat.pow_succ]
      have := ih (n / 10) (k - 1) hdiv hk1
      simp
      omega

/-- Rendering length of a natural number below `10^k`. -/
theorem decDigits_length_le (k : Nat) (n : Nat) (hn : n < 10 ^ k)
    (hk : 1 ≤ k) : (decDigits n).length ≤ k :=
  decDigitsGo_length_le (n + 1) n k hn hk

/-- `padNum` pads to exactly the requested width when the value fits. -/
theorem padNum_length (w n : Nat) (h : (decDigits n).length ≤ w) :
    (padNum w n).length = w := by
  show (List.replicate (w - (decDigits n).length) '0' ++ decDigits n).length = w
  simp
  omega

/-- **C7** (amended).  The generated order number is the literal
concatenation `ORD-` ++ `YYYYMMDD` ++ `-` ++ the first eight uuid characters
uppercased: the date stamp has exactly eight (zero-padded) digits for any
real date, and when the uuid characters are lowercase hex digits (as
`uuid.uuid4()` produces) the suffix is eight uppercase alphanumeric
characters.  Uniqueness, however, is enforced only by the database's unique
constraint: if the generated number collides with an existing order, the
insert fails at once with an integrity error — the code never regenerates,
never retries, and no `OrderNumberCollisionError` exists. -/
theorem claim_C7_order_number_amended (s : Store) (today : Date)
    (uuid : List Char) (total : Nat) (status : OrderStatus) (now : DateTime)
    (hlen : 8 ≤ uuid.length)
    (hhex : ∀ c ∈ uuid.take 8, c ∈ lowerHexDigits) :
    (generate_order_number today uuid
        = "ORD-" ++ dateStamp today ++ "-" ++ ⟨(uuid.take 8).map Char.toUpper⟩ ∧
      ((uuid.take 8).map Char.toUpper).length = 8 ∧
      (∀ c ∈ (uuid.take 8).map Char.toUpper, c ∈ upperHexDigits) ∧
      (today.year ≤ 9999 → today.month ≤ 99 → today.day ≤ 99 →
        (dateStamp today).length = 8)) ∧
    (s.orders.any
        (fun o => decide (o.order_number = generate_order_number today uuid)) = true →
      Order.save s today uuid total status now
        = .error "UNIQUE constraint failed: billing_app_order.order_number") ∧
    (s.orders.any
        (fun o => decide (o.order_number = generate_order_number today uuid)) = false →
      Order.save s today uuid total status now
        = .ok { s with
            orders := s.orders ++
              [⟨s.next_order_id, generate_order_number today uuid, total,
                status, now⟩],
            next_order_id := s.next_order_id + 1 }) := by
  refine ⟨⟨rfl, ?_, ?_, ?_⟩, ?_, ?_⟩
  · simp
    omega
  · intro c hc
    obtain ⟨c', hc', rfl⟩ := List.mem_map.mp hc
    have hmem := hhex c' hc'
    have hmap : ∀ x ∈ lowerHexDigits, Char.toUpper x ∈ upperHexDigits := by decide
    exact hmap c' hmem
  · intro hy hm hd
    have l4 : (decDigits today.year).length ≤ 4 :=
      decDigits_length_le 4 today.year (by omega) (by omega)
    have l2m : (decDigits today.month).length ≤ 2 :=
      decDigits_length_le 2 today.month (by omega) (by omega)
    have l2d : (decDigits today.day).length ≤ 2 :=
      decDigits_length_le 2 today.day (by omega) (by omega)
    show (padNum 4 today.year ++ padNum 2 today.month ++ padNum 2 today.day).length = 8
    rw [String.length_append, String.length_append,
      padNum_length 4 _ l4, padNum_length 2 _ l2m, padNum_length 2 _ l2d]
  · intro h
    simp [Order.save, h]
  · intro h
    simp [Order.save, h]

/-- Counterexample to C7 as stated: a store already holding order number
`ORD-20240105-ABCDEF01`, and a uuid draw whose first eight characters
generate exactly that number again.  `Order.save` fails immediately with the
database's unique-constraint error: there is no second generation, no single
retry, and no `OrderNumberCollisionError`. -/
theorem claim_C7_counterexample :
    generate_order_number ⟨2024, 1, 5⟩
        "abcdef01-2345".toList
      = "ORD-20240105-ABCDEF01" ∧
    Order.save
        ⟨[], [⟨0, "ORD-20240105-ABCDEF01", 1000, .pending, ⟨⟨2024, 1, 5⟩, 0⟩⟩],
         [], 1⟩
        ⟨2024, 1, 5⟩
        "abcdef01-2345".toList
        500 .pending ⟨⟨2024, 1, 5⟩, 1⟩
      = .error "UNIQUE constraint failed: billing_app_order.order_number" :=
  ⟨rfl, rfl⟩

/-- Witness for C7 (amended): a non-colliding draw on an empty store — the
amended theorem's hypotheses hold for a canonical uuid prefix, and the saved
order carries the generated number. -/
theorem claim_C7_witness :
    Order.save ⟨[], [], [], 0⟩ ⟨2024, 1, 5⟩
        "abcdef01-2345".toList
        500 .pending ⟨⟨2024, 1, 5⟩, 1⟩
      = .ok ⟨[], [⟨0, "ORD-20240105-ABCDEF01", 500, .pending, ⟨⟨2024, 1, 5⟩, 1⟩⟩],
             [], 1⟩ := by
  have h := (claim_C7_order_number_amended ⟨[], [], [], 0⟩ ⟨2024, 1, 5⟩
    "abcdef01-2345".toList
    500 .pending ⟨⟨2024, 1, 5⟩, 1⟩ (by decide) (by decide)).2.2 (by decide)
  rw [h]
  rfl

/-- **C10** (confirmed).  `add_to_cart` fails with a `success: false`
response and an unchanged cart when the menu item is absent or unavailable;
when it exists and is available, the response reports success and a
`cart_count` equal to the sum of all line quantities of the updated cart,
a previously absent line is created with quantity 1 and the current menu
price as snapshot, and a present line has exactly its quantity incremented
by 1 with every other line unchanged. -/
theorem claim_C10_add_to_cart (s : Store) (cart : List CartLine) (mid : Nat) :
    (s.menu.find? (fun m => decide (m.id = mid) && m.is_available) = none →
      add_to_cart s cart mid
        = (cart, ⟨false, "No Menu matches the given query.", none⟩)) ∧
    (∀ m, s.menu.find? (fun m' => decide (m'.id = mid) && m'.is_available)
        = some m →
      (add_to_cart s cart mid).2.success = true ∧
      (add_to_cart s cart mid).2.cart_count
        = some (cartCount (add_to_cart s cart mid).1) ∧
      ((∀ l ∈ cart, l.id ≠ mid) →
        (add_to_cart s cart mid).1 = cart ++ [⟨mid, m.name, m.price, 1⟩]) ∧
      (∀ pre line post, cart = pre ++ line :: post → line.id = mid →
        (∀ l ∈ pre, l.id ≠ mid) → (∀ l ∈ post, l.id ≠ mid) →
        (add_to_cart s cart mid).1
          = pre ++ { line with quantity := line.quantity + 1 } :: post)) := by
  have hmap : ∀ xs : List CartLine, (∀ l ∈ xs, l.id ≠ mid) →
      (xs.map (fun l =>
        if decide (l.id = mid) then { l with quantity := l.quantity + 1 } else l))
        = xs := by
    intro xs hxs
    induction xs with
    | nil => rfl
    | cons a as ih =>
      rw [List.map_cons, if_neg (by simpa using hxs a (by simp)),
        ih (fun l hl => hxs l (by simp [hl]))]
  constructor
  · intro h
    simp [add_to_cart, h]
  · intro m hm
    refine ⟨?_, ?_, ?_, ?_⟩
    · simp [add_to_cart, hm]
    · simp only [add_to_cart, hm]
    · intro hnone
      have hany : cart.any (fun l => decide (l.id = mid)) = false := by
        simp only [List.any_eq_false]
        intro l hl
        simpa using hnone l hl
      simp [add_to_cart, hm, hany]
    · intro pre line post hcart hline hpre hpost
      subst hcart
      have hany : (pre ++ line :: post).any (fun l => decide (l.id = mid)) = true := by
        simp only [List.any_eq_true]
        exact ⟨line, by simp, by simpa using hline⟩
      simp only [add_to_cart, hm, hany, if_true]
      rw [List.map_append, List.map_cons, hmap pre hpre, hmap post hpost,
        if_pos (by simpa using hline)]

/-- Witness for C10: on a menu with an available Tea (id 1) and an
unavailable item (id 2), adding id 1 bumps the existing Tea line from
quantity 2 to 3 with `cart_count` 3, and adding id 2 fails leaving the cart
unchanged. -/
theorem claim_C10_witness :
    (add_to_cart ⟨[⟨1, "Tea", 500, true⟩, ⟨2, "Off", 700, false⟩], [], [], 0⟩
        [⟨1, "Tea", 500, 2⟩] 1).1 = [⟨1, "Tea", 500, 3⟩] ∧
    (add_to_cart ⟨[⟨1, "Tea", 500, true⟩, ⟨2, "Off", 700, false⟩], [], [], 0⟩
        [⟨1, "Tea", 500, 2⟩] 1).2.success = true ∧
    (add_to_cart ⟨[⟨1, "Tea", 500, true⟩, ⟨2, "Off", 700, false⟩], [], [], 0⟩
        [⟨1, "Tea", 500, 2⟩] 1).2.cart_count = some 3 ∧
    add_to_cart ⟨[⟨1, "Tea", 500, true⟩, ⟨2, "Off", 700, false⟩], [], [], 0⟩
        [⟨1, "Tea", 500, 2⟩] 2
      = ([⟨1, "Tea", 500, 2⟩], ⟨false, "No Menu matches the given query.", none⟩) := by
  have h := (claim_C10_add_to_cart
    ⟨[⟨1, "Tea", 500, true⟩, ⟨2, "Off", 700, false⟩], [], [], 0⟩
    [⟨1, "Tea", 500, 2⟩] 1).2 ⟨1, "Tea", 500, true⟩ (by decide)
  have h1 := h.2.2.2 [] ⟨1, "Tea", 500, 2⟩ [] rfl rfl (by simp) (by simp)
  have hmiss := (claim_C10_add_to_cart
    ⟨[⟨1, "Tea", 500, true⟩, ⟨2, "Off", 700, false⟩], [], [], 0⟩
    [⟨1, "Tea", 500, 2⟩] 2).1 (by decide)
  refine ⟨by rw [h1]; rfl, h.1, ?_, hmiss⟩
  rw [h.2.1, h1]
  rfl

end Billing
